import Mathlib

/-!
Shallow embedding of the WebRTC-Phone signaling server (server.js, Socket.IO
section): the in-memory call-session store (`rooms` Map), the owner group
(`ownerSockets` / the owner-room), Socket.IO room membership, the per-socket
`roomId` property, and the event handlers `register-owner`, `initiate-call`,
`answer-call`, `decline-call`, `cancel-call`, `offer`, `answer`,
`ice-candidate`, `end-call`, `disconnect`, plus the periodic cleanup sweep.

Each handler is a pure function from server state and the handler inputs to
a new state and the list of emitted events.  An emitted event carries its
target (a single socket id, via io.to(socketId) or socket.emit, or a
Socket.IO room name, via io.to(roomName)); delivery resolves a room target
to the sockets currently in that room.  Socket.IO removes a disconnecting
socket from all rooms before the `disconnect` handler runs, which the
`handleDisconnect` embedding reproduces.
-/

namespace WebRTCPhone

/-- A call-session record as stored in the `rooms` Map by `initiate-call`:
`{ caller, callerName, visitorId, isVideoCall, owner: null, status: 'ringing', createdAt }`. -/
structure Room where
  caller : String
  callerName : String
  visitorId : String
  isVideoCall : Bool
  owner : Option String
  status : String
  createdAt : Nat
deriving Repr, DecidableEq

/-- Association-list lookup, the embedding of JavaScript `Map.get`. -/
def alistGet {α : Type} (m : List (String × α)) (k : String) : Option α :=
  match m with
  | [] => none
  | (k1, v) :: rest => if k1 = k then some v else alistGet rest k

/-- Association-list update, the embedding of JavaScript `Map.set`:
replaces the entry for an existing key in place, otherwise appends. -/
def alistSet {α : Type} (m : List (String × α)) (k : String) (v : α) :
    List (String × α) :=
  match m with
  | [] => [(k, v)]
  | (k1, v1) :: rest =>
      if k1 = k then (k, v) :: rest else (k1, v1) :: alistSet rest k v

/-- Association-list removal, the embedding of JavaScript `Map.delete`. -/
def alistDelete {α : Type} (m : List (String × α)) (k : String) :
    List (String × α) :=
  m.filter (fun p => p.1 ≠ k)

/-- Set insertion for `Set.add` / `socket.join` membership (no duplicates). -/
def setAdd (s : List String) (x : String) : List String :=
  if x ∈ s then s else s ++ [x]

/-- Set removal for `Set.delete` / leaving a Socket.IO room. -/
def setDel (s : List String) (x : String) : List String :=
  s.filter (fun y => y ≠ x)

/-- The target of an emitted event: a single socket (io.to(socketId) /
socket.emit) or every socket in a named Socket.IO room (io.to(roomName),
including the owner-room). -/
inductive Target where
  | socket (sid : String)
  | room (name : String)
deriving Repr, DecidableEq

/-- The events the signaling section emits, with their payload fields. -/
inductive EventMsg where
  | registered (role : String)
  | errorMsg (message : String)
  | incomingCall (roomId callerName callerId visitorId : String) (isVideoCall : Bool)
  | callInitiated (roomId status : String)
  | callAnswered (roomId : String)
  | createOffer (roomId targetId : String)
  | callDeclined (roomId : String)
  | callCancelled (roomId : String)
  | offerMsg (offer roomId senderId : String)
  | answerMsg (answer roomId senderId : String)
  | iceCandidate (candidate roomId senderId : String)
  | callEnded (roomId : String) (reason : Option String)
deriving Repr, DecidableEq

/-- An emitted event: target plus payload. -/
abbrev Emit := Target × EventMsg

/-- The mutable server state the Socket.IO section closes over:
the `rooms` session Map, the `ownerSockets` set, Socket.IO room
membership (room name to member socket ids), each socket's `roomId`
property, and the set of live (connected) socket ids. -/
structure ServerState where
  rooms : List (String × Room)
  ownerSockets : List String
  members : List (String × List String)
  sockRoomId : List (String × String)
  live : List String
deriving Repr, DecidableEq

/-- Sockets currently in a named Socket.IO room. -/
def getMembers (st : ServerState) (r : String) : List String :=
  (alistGet st.members r).getD []

/-- socket.join(r): adds the socket to the named room's member set. -/
def joinRoom (st : ServerState) (sid r : String) : ServerState :=
  { st with members := alistSet st.members r (setAdd (getMembers st r) sid) }

/-- Socket.IO teardown before the disconnect handler runs: the socket has
left every room and is no longer a live connection. -/
def leaveAll (st : ServerState) (sid : String) : ServerState :=
  { st with
    members := st.members.map (fun p => (p.1, setDel p.2 sid)),
    live := setDel st.live sid }

/-- Resolve an emit target to the socket ids it is delivered to:
a socket target is delivered when that socket is live, a room target
fans out to the room's current members. -/
def deliverTo (st : ServerState) (t : Target) : List String :=
  match t with
  | .socket s => if s ∈ st.live then [s] else []
  | .room r => getMembers st r

/-- All (recipient, event) deliveries of a list of emits, resolved
against a server state. -/
def deliveries (st : ServerState) (es : List Emit) : List (String × EventMsg) :=
  es.flatMap (fun e => (deliverTo st e.1).map (fun s => (s, e.2)))

/-- Handler for `register-owner` (current server): when the HTTP session
carries an ownerId the socket is added to `ownerSockets`, joins the
owner-room, and receives `registered { role: 'owner' }`; otherwise the
socket receives `error { message: 'Authentication required' }` and the
state is untouched. -/
def handleRegisterOwner (st : ServerState) (sid : String)
    (hasOwnerSession : Bool) : ServerState × List Emit :=
  if hasOwnerSession then
    let st1 := { st with ownerSockets := setAdd st.ownerSockets sid }
    (joinRoom st1 sid "owner-room",
     [(Target.socket sid, .registered "owner")])
  else
    (st, [(Target.socket sid, .errorMsg "Authentication required")])

/-- Handler for `register-owner` in the legacy server variant: no
authentication check at all — every requester is added to `ownerSockets`,
joins the owner-room, and receives `registered { role: 'owner' }`. -/
def handleRegisterOwnerLegacy (st : ServerState) (sid : String) :
    ServerState × List Emit :=
  let st1 := { st with ownerSockets := setAdd st.ownerSockets sid }
  (joinRoom st1 sid "owner-room",
   [(Target.socket sid, .registered "owner")])

/-- Handler for `initiate-call`: unconditionally stores a fresh session
record in `ringing` status under the generated roomId, joins the caller
to the session room, overwrites the caller's `roomId` property, notifies
the owner-room with `incoming-call`, and acks the caller with
`call-initiated`.  The roomId (generated from Date.now plus a random
suffix) and the creation time are inputs here. -/
def handleInitiateCall (st : ServerState)
    (sid callerName visitorId : String) (isVideoCall : Bool)
    (roomId : String) (now : Nat) : ServerState × List Emit :=
  let room : Room :=
    { caller := sid, callerName := callerName, visitorId := visitorId,
      isVideoCall := isVideoCall, owner := none, status := "ringing",
      createdAt := now }
  let st1 := { st with rooms := alistSet st.rooms roomId room }
  let st2 := joinRoom st1 sid roomId
  let st3 := { st2 with sockRoomId := alistSet st2.sockRoomId sid roomId }
  (st3,
   [(Target.room "owner-room",
     .incomingCall roomId callerName sid visitorId isVideoCall),
    (Target.socket sid, .callInitiated roomId "ringing")])

/-- Handler for `answer-call`: on a missing session the answerer gets
`error { message: 'Call no longer exists' }`; otherwise the session's
owner is set to the answerer and its status to `connecting` (no check of
the previous status or owner), the answerer joins the session room and
has its `roomId` property set, the caller receives `call-answered`, and
the answerer receives `create-offer` targeting the caller. -/
def handleAnswerCall (st : ServerState) (sid roomId : String) :
    ServerState × List Emit :=
  match alistGet st.rooms roomId with
  | none => (st, [(Target.socket sid, .errorMsg "Call no longer exists")])
  | some room =>
      let room1 := { room with owner := some sid, status := "connecting" }
      let st1 := { st with rooms := alistSet st.rooms roomId room1 }
      let st2 := joinRoom st1 sid roomId
      let st3 := { st2 with sockRoomId := alistSet st2.sockRoomId sid roomId }
      (st3,
       [(Target.socket room.caller, .callAnswered roomId),
        (Target.socket sid, .createOffer roomId room.caller)])

/-- Handler for `decline-call`: when the session exists, the caller is
notified with `call-declined` and the session is deleted; otherwise
nothing happens. -/
def handleDeclineCall (st : ServerState) (sid roomId : String) :
    ServerState × List Emit :=
  match alistGet st.rooms roomId with
  | none => (st, [])
  | some room =>
      ({ st with rooms := alistDelete st.rooms roomId },
       [(Target.socket room.caller, .callDeclined roomId)])

/-- Handler for `cancel-call`: when the session exists, the owner-room is
notified with `call-cancelled` and the session is deleted — the sender is
never compared with the session's caller; otherwise nothing happens. -/
def handleCancelCall (st : ServerState) (sid roomId : String) :
    ServerState × List Emit :=
  match alistGet st.rooms roomId with
  | none => (st, [])
  | some _ =>
      ({ st with rooms := alistDelete st.rooms roomId },
       [(Target.room "owner-room", .callCancelled roomId)])

/-- Handler for `offer`: relays the opaque offer payload to the named
target socket tagged with the sender's id; no session or membership
check of any kind. -/
def handleOffer (st : ServerState) (sid roomId offer targetId : String) :
    ServerState × List Emit :=
  (st, [(Target.socket targetId, .offerMsg offer roomId sid)])

/-- Handler for `answer`: relays the opaque answer payload to the named
target socket tagged with the sender's id; no session or membership
check of any kind. -/
def handleAnswerSignal (st : ServerState) (sid roomId answer targetId : String) :
    ServerState × List Emit :=
  (st, [(Target.socket targetId, .answerMsg answer roomId sid)])

/-- Handler for `ice-candidate`: relays the opaque candidate payload to
the named target socket tagged with the sender's id; no session or
membership check of any kind. -/
def handleIceCandidate (st : ServerState)
    (sid roomId candidate targetId : String) : ServerState × List Emit :=
  (st, [(Target.socket targetId, .iceCandidate candidate roomId sid)])

/-- Handler for `end-call`: when the session exists, `call-ended` is
broadcast to the session's Socket.IO room and the session is deleted —
the sender's identity is never examined; otherwise nothing happens. -/
def handleEndCall (st : ServerState) (sid roomId : String) :
    ServerState × List Emit :=
  match alistGet st.rooms roomId with
  | none => (st, [])
  | some _ =>
      ({ st with rooms := alistDelete st.rooms roomId },
       [(Target.room roomId, .callEnded roomId none)])

/-- Handler for `disconnect`: Socket.IO has already removed the socket
from every room and from the live set; the handler then removes it from
`ownerSockets`, and if the socket's `roomId` property names a session
still in the store, broadcasts `call-ended` with reason
`peer-disconnected` to that session's room (which the socket has left)
and deletes the session.  The socket's `roomId` binding is dropped with
the socket. -/
def handleDisconnect (st : ServerState) (sid : String) :
    ServerState × List Emit :=
  let st0 := leaveAll st sid
  let st1 := { st0 with ownerSockets := setDel st0.ownerSockets sid }
  match alistGet st1.sockRoomId sid with
  | none => ({ st1 with sockRoomId := alistDelete st1.sockRoomId sid }, [])
  | some rid =>
      match alistGet st1.rooms rid with
      | none => ({ st1 with sockRoomId := alistDelete st1.sockRoomId sid }, [])
      | some _ =>
          ({ st1 with
              rooms := alistDelete st1.rooms rid,
              sockRoomId := alistDelete st1.sockRoomId sid },
           [(Target.room rid, .callEnded rid (some "peer-disconnected"))])

/-- Maximum session age before the cleanup sweep removes it:
`10 * 60 * 1000` milliseconds. -/
def maxAge : Nat := 10 * 60 * 1000

/-- The sweep's staleness test on a stored session entry:
`now - room.createdAt > maxAge`. -/
def staleAt (now : Nat) (p : String × Room) : Bool :=
  now - p.2.createdAt > maxAge

/-- The periodic cleanup sweep: every session whose age strictly exceeds
`maxAge` is broadcast `call-ended` with reason `timeout` to its room and
deleted; younger sessions are untouched. -/
def reaperSweep (st : ServerState) (now : Nat) : ServerState × List Emit :=
  ({ st with rooms := st.rooms.filter (fun p => ! staleAt now p) },
   (st.rooms.filter (staleAt now)).map
     (fun p => (Target.room p.1, .callEnded p.1 (some "timeout"))))

/-- The empty server state at process start. -/
def initState : ServerState :=
  { rooms := [], ownerSockets := [], members := [], sockRoomId := [], live := [] }

/-- Fixture: a freshly initiated session record awaiting an answer. -/
def exRingingRoom : Room :=
  { caller := "v", callerName := "Alice", visitorId := "vis1",
    isVideoCall := false, owner := none, status := "ringing", createdAt := 0 }

/-- Fixture: server state holding the ringing session `r` initiated by
visitor socket `v`, with one registered owner socket `o`. -/
def exRingingState : ServerState :=
  { rooms := [("r", exRingingRoom)],
    ownerSockets := ["o"],
    members := [("owner-room", ["o"]), ("r", ["v"])],
    sockRoomId := [("v", "r")],
    live := ["v", "o"] }

/-- Fixture: the session record of `r` after owner socket `o` answered. -/
def exConnRoom : Room :=
  { caller := "v", callerName := "Alice", visitorId := "vis1",
    isVideoCall := false, owner := some "o", status := "connecting", createdAt := 0 }

/-- Fixture: server state where owner `o` has answered session `r`, both
participants are in its Socket.IO room, and a third socket `o2` is live. -/
def exConnState : ServerState :=
  { rooms := [("r", exConnRoom)],
    ownerSockets := ["o"],
    members := [("owner-room", ["o"]), ("r", ["v", "o"])],
    sockRoomId := [("v", "r"), ("o", "r")],
    live := ["v", "o", "o2"] }

/-! ### Association-list lemmas -/

theorem alistGet_set_self {α : Type} (m : List (String × α)) (k : String)
    (v : α) : alistGet (alistSet m k v) k = some v := by
  induction m with
  | nil => simp [alistSet, alistGet]
  | cons p rest ih =>
      obtain ⟨k1, v1⟩ := p
      by_cases h : k1 = k <;> simp [alistSet, alistGet, h, ih]

theorem alistGet_set_ne {α : Type} (m : List (String × α)) (k k2 : String)
    (v : α) (h : k2 ≠ k) : alistGet (alistSet m k v) k2 = alistGet m k2 := by
  have h2 : ¬ (k = k2) := fun hh => h hh.symm
  induction m with
  | nil => simp [alistSet, alistGet, h2]
  | cons p rest ih =>
      obtain ⟨k1, v1⟩ := p
      by_cases h1 : k1 = k
      · subst h1
        simp [alistSet, alistGet, h2]
      · by_cases h3 : k1 = k2 <;> simp [alistSet, alistGet, h, h1, h3, ih]

theorem alistGet_filter_eq {α : Type} (q : String × α → Bool)
    (m : List (String × α)) (k : String) (hq : ∀ v, q (k, v) = true) :
    alistGet (m.filter q) k = alistGet m k := by
  induction m with
  | nil => simp [alistGet]
  | cons p rest ih =>
      obtain ⟨k1, v1⟩ := p
      by_cases h1 : k1 = k
      · subst h1
        simp [List.filter_cons, hq v1, alistGet]
      · cases hqv : q (k1, v1) <;>
          simp [List.filter_cons, hqv, alistGet, h1, ih]

theorem alistGet_filter_not {α : Type} (q : String × α → Bool)
    (m : List (String × α)) (k : String) (hq : ∀ v, q (k, v) = false) :
    alistGet (m.filter q) k = none := by
  induction m with
  | nil => simp [alistGet]
  | cons p rest ih =>
      obtain ⟨k1, v1⟩ := p
      by_cases h1 : k1 = k
      · subst h1
        simp [List.filter_cons, hq v1, ih]
      · cases hqv : q (k1, v1) <;>
          simp [List.filter_cons, hqv, alistGet, h1, ih]

theorem alistGet_delete_self {α : Type} (m : List (String × α)) (k : String) :
    alistGet (alistDelete m k) k = none := by
  unfold alistDelete
  exact alistGet_filter_not _ _ _ (fun v => by simp)

theorem alistGet_delete_ne {α : Type} (m : List (String × α)) (k k2 : String)
    (h : k2 ≠ k) : alistGet (alistDelete m k) k2 = alistGet m k2 := by
  unfold alistDelete
  exact alistGet_filter_eq _ _ _ (fun v => by simp [h])

theorem alistDelete_idem {α : Type} (m : List (String × α)) (k : String) :
    alistDelete (alistDelete m k) k = alistDelete m k := by
  simp [alistDelete, List.filter_filter]

theorem alistGet_setDel_map (m : List (String × List String)) (x k : String) :
    alistGet (m.map (fun p => (p.1, setDel p.2 x))) k =
      (alistGet m k).map (fun l => setDel l x) := by
  induction m with
  | nil => simp [alistGet]
  | cons p rest ih =>
      obtain ⟨k1, v1⟩ := p
      by_cases h : k1 = k <;> simp [alistGet, h, ih]

theorem alistGet_none_iff {α : Type} (m : List (String × α)) (k : String) :
    alistGet m k = none ↔ k ∉ m.map Prod.fst := by
  induction m with
  | nil => simp [alistGet]
  | cons p rest ih =>
      obtain ⟨k1, v1⟩ := p
      by_cases h : k1 = k
      · subst h
        simp [alistGet]
      · simp [alistGet, h, ih, Ne.symm h]

theorem countP_key_zero {α : Type} (m : List (String × α)) (k : String)
    (h : alistGet m k = none) :
    m.countP (fun p => decide (p.1 = k)) = 0 := by
  rw [List.countP_eq_zero]
  intro p hp
  simp only [decide_eq_true_eq]
  intro hk
  exact ((alistGet_none_iff m k).1 h) (hk ▸ List.mem_map_of_mem Prod.fst hp)

theorem alistGet_filter_none {α : Type} (q : String × α → Bool)
    (m : List (String × α)) (k : String) (h : alistGet m k = none) :
    alistGet (m.filter q) k = none := by
  rw [alistGet_none_iff] at h ⊢
  intro hk
  obtain ⟨p, hp, hpk⟩ := List.mem_map.1 hk
  exact h (hpk ▸ List.mem_map_of_mem Prod.fst (List.mem_of_mem_filter hp))

theorem alistGet_filter_pos {α : Type} (q : String × α → Bool)
    (m : List (String × α)) (k : String) (v : α)
    (h : alistGet m k = some v) (hq : q (k, v) = true) :
    alistGet (m.filter q) k = some v := by
  induction m with
  | nil => simp [alistGet] at h
  | cons p rest ih =>
      obtain ⟨k1, v1⟩ := p
      by_cases h1 : k1 = k
      · subst h1
        simp [alistGet] at h
        subst h
        simp [List.filter_cons, hq, alistGet]
      · simp only [alistGet, if_neg h1] at h
        cases hqv : q (k1, v1) <;>
          simp [List.filter_cons, hqv, alistGet, h1, ih h]

theorem alistGet_filter_neg {α : Type} (q : String × α → Bool)
    (m : List (String × α)) (k : String) (v : α)
    (hnd : (m.map Prod.fst).Nodup)
    (h : alistGet m k = some v) (hq : q (k, v) = false) :
    alistGet (m.filter q) k = none := by
  induction m with
  | nil => simp [alistGet] at h
  | cons p rest ih =>
      obtain ⟨k1, v1⟩ := p
      simp only [List.map_cons, List.nodup_cons] at hnd
      by_cases h1 : k1 = k
      · subst h1
        simp [alistGet] at h
        subst h
        simp only [List.filter_cons, hq, if_neg Bool.false_ne_true]
        exact alistGet_filter_none q rest k1 ((alistGet_none_iff rest k1).2 hnd.1)
      · simp only [alistGet, if_neg h1] at h
        cases hqv : q (k1, v1) <;>
          simp [List.filter_cons, hqv, alistGet, h1, ih hnd.2 h]

theorem countP_key_filter_one {α : Type} (q : String × α → Bool)
    (m : List (String × α)) (k : String) (v : α)
    (hnd : (m.map Prod.fst).Nodup)
    (h : alistGet m k = some v) (hq : q (k, v) = true) :
    (m.filter q).countP (fun p => decide (p.1 = k)) = 1 := by
  induction m with
  | nil => simp [alistGet] at h
  | cons p rest ih =>
      obtain ⟨k1, v1⟩ := p
      simp only [List.map_cons, List.nodup_cons] at hnd
      by_cases h1 : k1 = k
      · subst h1
        simp [alistGet] at h
        subst h
        have hz : (rest.filter q).countP (fun p => decide (p.1 = k1)) = 0 :=
          countP_key_zero _ _
            (alistGet_filter_none q rest k1 ((alistGet_none_iff rest k1).2 hnd.1))
        simp [List.filter_cons, hq, List.countP_cons, hz]
      · simp only [alistGet, if_neg h1] at h
        cases hqv : q (k1, v1)
        · simp only [List.filter_cons, hqv, if_neg Bool.false_ne_true]
          exact ih hnd.2 h
        · simp [List.filter_cons, hqv, List.countP_cons, h1, ih hnd.2 h]

theorem mem_of_alistGet_some {α : Type} (m : List (String × α)) (k : String)
    (v : α) (h : alistGet m k = some v) : (k, v) ∈ m := by
  induction m with
  | nil => simp [alistGet] at h
  | cons p rest ih =>
      obtain ⟨k1, v1⟩ := p
      by_cases h1 : k1 = k
      · subst h1
        simp [alistGet] at h
        subst h
        exact List.mem_cons_self _ _
      · simp only [alistGet, if_neg h1] at h
        exact List.mem_cons_of_mem _ (ih h)

theorem getMembers_leaveAll (st : ServerState) (sid r : String) :
    getMembers (leaveAll st sid) r = setDel (getMembers st r) sid := by
  unfold getMembers leaveAll
  simp only []
  rw [alistGet_setDel_map]
  cases alistGet st.members r <;> simp [setDel]

/-! ### Claim theorems -/

/-- Claim C4 counterexample: the relay forwards an `offer` even though the
named session does not exist in the store at all (so its sender is not a
participant of it either) — the claimed preconditions "session exists" and
"sender is a current participant" are never checked. -/
theorem C4_counterexample :
    handleOffer { initState with live := ["x", "t"] } "x" "ghost" "PAYLOAD" "t" =
      ({ initState with live := ["x", "t"] },
       [(Target.socket "t", .offerMsg "PAYLOAD" "ghost" "x")]) ∧
    alistGet ({ initState with live := ["x", "t"] } : ServerState).rooms "ghost" =
      none := by
  decide

/-- Claim C4 (amended): the `offer`, `answer`, and `ice-candidate` relays
forward the opaque payload unconditionally — no session-existence check and
no participant check — delivering it verbatim to the named target
connection tagged with the sender's connection id, and leaving the server
state untouched. -/
theorem C4_relay_forwards_unconditionally (st : ServerState)
    (sid roomId payload targetId : String) :
    handleOffer st sid roomId payload targetId =
      (st, [(Target.socket targetId, .offerMsg payload roomId sid)]) ∧
    handleAnswerSignal st sid roomId payload targetId =
      (st, [(Target.socket targetId, .answerMsg payload roomId sid)]) ∧
    handleIceCandidate st sid roomId payload targetId =
      (st, [(Target.socket targetId, .iceCandidate payload roomId sid)]) :=
  ⟨rfl, rfl, rfl⟩

/-- Claim C6 counterexample: a connection without an authenticated owner
session that requests `register-owner` does not fail silently — the server
emits an `error` event with message `Authentication required` to that very
connection, so the rejection is surfaced. -/
theorem C6_counterexample :
    handleRegisterOwner { initState with live := ["u"] } "u" false =
      ({ initState with live := ["u"] },
       [(Target.socket "u", .errorMsg "Authentication required")]) := by
  decide

/-- Claim C6 (amended): in the current server an unauthenticated
`register-owner` is rejected — the state is untouched, so the connection is
not added to the owner group and remains unassigned — but the rejection is
surfaced to the connection as an `error` event rather than failing
silently; in the legacy server variant there is no authentication check at
all: every requester is added to the owner group and acknowledged. -/
theorem C6_register_owner_unauthorized (st : ServerState) (sid : String) :
    handleRegisterOwner st sid false =
      (st, [(Target.socket sid, .errorMsg "Authentication required")]) ∧
    (handleRegisterOwnerLegacy st sid).1.ownerSockets =
      setAdd st.ownerSockets sid ∧
    (handleRegisterOwnerLegacy st sid).2 =
      [(Target.socket sid, .registered "owner")] := by
  refine ⟨rfl, ?_, rfl⟩
  simp [handleRegisterOwnerLegacy, joinRoom]

/-- Claim C8: removing a session is idempotent — a `decline-call`,
`cancel-call`, or `end-call` naming a session absent from the store is a
no-op (no error, no emitted event, state unchanged), and for each of the
three handlers performing the removal twice equals performing it once. -/
theorem C8_remove_idempotent (st : ServerState) (sid roomId : String)
    (h : alistGet st.rooms roomId = none) :
    handleDeclineCall st sid roomId = (st, []) ∧
    handleCancelCall st sid roomId = (st, []) ∧
    handleEndCall st sid roomId = (st, []) ∧
    (∀ (st2 : ServerState) (s1 s2 rid : String),
      handleDeclineCall (handleDeclineCall st2 s1 rid).1 s2 rid =
        ((handleDeclineCall st2 s1 rid).1, []) ∧
      handleCancelCall (handleCancelCall st2 s1 rid).1 s2 rid =
        ((handleCancelCall st2 s1 rid).1, []) ∧
      handleEndCall (handleEndCall st2 s1 rid).1 s2 rid =
        ((handleEndCall st2 s1 rid).1, [])) := by
  refine ⟨?_, ?_, ?_, ?_⟩
  · simp [handleDeclineCall, h]
  · simp [handleCancelCall, h]
  · simp [handleEndCall, h]
  · intro st2 s1 s2 rid
    refine ⟨?_, ?_, ?_⟩
    · cases h2 : alistGet st2.rooms rid <;>
        simp [handleDeclineCall, h2, alistGet_delete_self]
    · cases h2 : alistGet st2.rooms rid <;>
        simp [handleCancelCall, h2, alistGet_delete_self]
    · cases h2 : alistGet st2.rooms rid <;>
        simp [handleEndCall, h2, alistGet_delete_self]

/-- Claim C8 witness: on the empty store, each of the three removal
handlers naming the absent session `r` is a no-op. -/
theorem C8_remove_idempotent_witness :
    alistGet initState.rooms "r" = none ∧
    (handleDeclineCall initState "v" "r" = (initState, []) ∧
     handleCancelCall initState "v" "r" = (initState, []) ∧
     handleEndCall initState "v" "r" = (initState, []) ∧
     (∀ (st2 : ServerState) (s1 s2 rid : String),
       handleDeclineCall (handleDeclineCall st2 s1 rid).1 s2 rid =
         ((handleDeclineCall st2 s1 rid).1, []) ∧
       handleCancelCall (handleCancelCall st2 s1 rid).1 s2 rid =
         ((handleCancelCall st2 s1 rid).1, []) ∧
       handleEndCall (handleEndCall st2 s1 rid).1 s2 rid =
         ((handleEndCall st2 s1 rid).1, []))) :=
  ⟨by decide, C8_remove_idempotent initState "v" "r" (by decide)⟩

/-- Claim C9 counterexample: a `cancel-call` issued by socket `x`, which is
not the initiator of session `r` (its caller is `v`), still takes effect —
the owner group is notified with `call-cancelled` and the session is
removed from the store, against the claim that a non-initiator
cancellation leaves the session in place. -/
theorem C9_counterexample :
    exRingingRoom.caller = "v" ∧
    alistGet (handleCancelCall exRingingState "x" "r").1.rooms "r" = none ∧
    (handleCancelCall exRingingState "x" "r").2 =
      [(Target.room "owner-room", .callCancelled "r")] := by
  decide

/-- Claim C9 (amended): `cancel-call` on an existing session takes effect
regardless of which connection issues it — the sender is never compared
with the session's initiator: the owner group is notified with
`call-cancelled` and the session is removed, for every sender alike. -/
theorem C9_cancel_ignores_sender (st : ServerState) (sid roomId : String)
    (room : Room) (h : alistGet st.rooms roomId = some room) :
    handleCancelCall st sid roomId =
      ({ st with rooms := alistDelete st.rooms roomId },
       [(Target.room "owner-room", .callCancelled roomId)]) ∧
    (∀ sid2, handleCancelCall st sid2 roomId = handleCancelCall st sid roomId) := by
  constructor
  · simp [handleCancelCall, h]
  · intro sid2
    simp [handleCancelCall, h]

/-- Claim C9 witness: on the ringing-session fixture, a `cancel-call` from
the non-initiator `x` notifies the owner group and removes the session,
and agrees with a `cancel-call` from any other sender. -/
theorem C9_cancel_ignores_sender_witness :
    alistGet exRingingState.rooms "r" = some exRingingRoom ∧
    (handleCancelCall exRingingState "x" "r" =
      ({ exRingingState with rooms := alistDelete exRingingState.rooms "r" },
       [(Target.room "owner-room", .callCancelled "r")]) ∧
     (∀ sid2, handleCancelCall exRingingState sid2 "r" =
        handleCancelCall exRingingState "x" "r")) :=
  ⟨by decide, C9_cancel_ignores_sender exRingingState "x" "r" exRingingRoom (by decide)⟩

/-- Claim C10: `end-call` on an existing session broadcasts `call-ended` to
the session's Socket.IO room and removes the session from the store, for
every sender — the handler never examines whether the sending connection
is one of the session's participants, so any connection that names the
session id terminates the call. -/
theorem C10_end_call_any_sender (st : ServerState) (sid roomId : String)
    (room : Room) (h : alistGet st.rooms roomId = some room) :
    handleEndCall st sid roomId =
      ({ st with rooms := alistDelete st.rooms roomId },
       [(Target.room roomId, .callEnded roomId none)]) ∧
    alistGet (handleEndCall st sid roomId).1.rooms roomId = none ∧
    (∀ sid2, handleEndCall st sid2 roomId = handleEndCall st sid roomId) := by
  refine ⟨?_, ?_, ?_⟩
  · simp [handleEndCall, h]
  · simp [handleEndCall, h, alistGet_delete_self]
  · intro sid2
    simp [handleEndCall, h]

/-- Claim C10 witness: on the connecting-session fixture, an `end-call`
from the outside socket `x` (not a participant of session `r`) broadcasts
`call-ended` to the session room and removes the session. -/
theorem C10_end_call_any_sender_witness :
    alistGet exConnState.rooms "r" = some exConnRoom ∧
    (handleEndCall exConnState "x" "r" =
      ({ exConnState with rooms := alistDelete exConnState.rooms "r" },
       [(Target.room "r", .callEnded "r" none)]) ∧
     alistGet (handleEndCall exConnState "x" "r").1.rooms "r" = none ∧
     (∀ sid2, handleEndCall exConnState sid2 "r" =
        handleEndCall exConnState "x" "r")) :=
  ⟨by decide, C10_end_call_any_sender exConnState "x" "r" exConnRoom (by decide)⟩

/-- Claim C7: `answer-call` on an existing session stores the answering
connection as the session's owner and moves the status to `connecting`,
notifies the initiator with `call-answered`, and instructs the answering
connection — not the initiator — to produce the negotiation offer via a
`create-offer` event targeting the initiator's connection id. -/
theorem C7_answer_call_claims_session (st : ServerState) (sid roomId : String)
    (room : Room) (h : alistGet st.rooms roomId = some room) :
    alistGet (handleAnswerCall st sid roomId).1.rooms roomId =
      some { room with owner := some sid, status := "connecting" } ∧
    (handleAnswerCall st sid roomId).2 =
      [(Target.socket room.caller, .callAnswered roomId),
       (Target.socket sid, .createOffer roomId room.caller)] := by
  constructor
  · simp [handleAnswerCall, h, joinRoom, alistGet_set_self]
  · simp [handleAnswerCall, h]

/-- Claim C7 witness: on the ringing-session fixture, owner socket `o`
answering session `r` claims it (owner `o`, status `connecting`), the
initiator `v` receives `call-answered`, and `o` receives `create-offer`
targeting `v`. -/
theorem C7_answer_call_claims_session_witness :
    alistGet exRingingState.rooms "r" = some exRingingRoom ∧
    (alistGet (handleAnswerCall exRingingState "o" "r").1.rooms "r" =
      some { exRingingRoom with owner := some "o", status := "connecting" } ∧
     (handleAnswerCall exRingingState "o" "r").2 =
      [(Target.socket exRingingRoom.caller, .callAnswered "r"),
       (Target.socket "o", .createOffer "r" exRingingRoom.caller)]) :=
  ⟨by decide, C7_answer_call_claims_session exRingingState "o" "r" exRingingRoom (by decide)⟩

/-- Claim C1 counterexample: on the fixture where session `r` is already
claimed (status `connecting`, owner `o`), a second `answer-call` from `o2`
is not rejected — it silently re-claims the session, overwriting the owner
with `o2` and emitting the normal `call-answered` / `create-offer` pair
instead of any error. -/
theorem C1_counterexample :
    exConnRoom.status = "connecting" ∧
    (alistGet (handleAnswerCall exConnState "o2" "r").1.rooms "r").map
        Room.owner = some (some "o2") ∧
    (handleAnswerCall exConnState "o2" "r").2 =
      [(Target.socket "v", .callAnswered "r"),
       (Target.socket "o2", .createOffer "r" "v")] := by
  decide

/-- Claim C1 (amended): a claim (`answer-call`) requires only that the
session still exist, in any status — while the session exists every later
claim also succeeds, overwriting the owner and re-emitting
`call-answered` / `create-offer`, so a session already in `connecting` is
silently re-claimed; only a claim on a session that was meanwhile removed
is rejected, with a `Call no longer exists` error (SessionGone). -/
theorem C1_claim_checks_existence_only (st : ServerState) (sid roomId : String)
    (room : Room) (h : alistGet st.rooms roomId = some room) :
    alistGet (handleAnswerCall st sid roomId).1.rooms roomId =
      some { room with owner := some sid, status := "connecting" } ∧
    (handleAnswerCall st sid roomId).2 =
      [(Target.socket room.caller, .callAnswered roomId),
       (Target.socket sid, .createOffer roomId room.caller)] ∧
    (∀ (st2 : ServerState) (sid2 rid2 : String),
      alistGet st2.rooms rid2 = none →
      handleAnswerCall st2 sid2 rid2 =
        (st2, [(Target.socket sid2, .errorMsg "Call no longer exists")])) := by
  refine ⟨?_, ?_, ?_⟩
  · simp [handleAnswerCall, h, joinRoom, alistGet_set_self]
  · simp [handleAnswerCall, h]
  · intro st2 sid2 rid2 h2
    simp [handleAnswerCall, h2]

/-- Claim C1 witness: on the already-claimed fixture (status `connecting`,
owner `o`), a later `answer-call` from `o2` overwrites the owner and emits
the normal answer events, and an `answer-call` naming an absent session is
rejected with the `Call no longer exists` error. -/
theorem C1_claim_checks_existence_only_witness :
    alistGet exConnState.rooms "r" = some exConnRoom ∧
    (alistGet (handleAnswerCall exConnState "o2" "r").1.rooms "r" =
      some { exConnRoom with owner := some "o2", status := "connecting" } ∧
     (handleAnswerCall exConnState "o2" "r").2 =
      [(Target.socket exConnRoom.caller, .callAnswered "r"),
       (Target.socket "o2", .createOffer "r" exConnRoom.caller)] ∧
     (∀ (st2 : ServerState) (sid2 rid2 : String),
       alistGet st2.rooms rid2 = none →
       handleAnswerCall st2 sid2 rid2 =
         (st2, [(Target.socket sid2, .errorMsg "Call no longer exists")]))) :=
  ⟨by decide, C1_claim_checks_existence_only exConnState "o2" "r" exConnRoom (by decide)⟩

/-- Claim C3 counterexample: socket `v` initiates session `r1` and, while
still bound to it, issues a second `initiate-call` — far from being
rejected, the second call creates a new session `r2` in the store (the
first one also remains) and rebinds the connection's `roomId` to `r2`. -/
theorem C3_counterexample :
    (alistGet (handleInitiateCall (handleInitiateCall
        { initState with live := ["v", "o"] } "v" "Alice" "vis1" false "r1" 0).1
        "v" "Alice" "vis1" false "r2" 5).1.rooms "r2").map Room.caller =
      some "v" ∧
    (alistGet (handleInitiateCall (handleInitiateCall
        { initState with live := ["v", "o"] } "v" "Alice" "vis1" false "r1" 0).1
        "v" "Alice" "vis1" false "r2" 5).1.rooms "r1").map Room.caller =
      some "v" ∧
    alistGet (handleInitiateCall (handleInitiateCall
        { initState with live := ["v", "o"] } "v" "Alice" "vis1" false "r1" 0).1
        "v" "Alice" "vis1" false "r2" 5).1.sockRoomId "v" = some "r2" := by
  decide

/-- Claim C3 (amended): a second `initiate-call` from a connection already
bound to an active session is not rejected — a new session is created in
`ringing` under the fresh room id, the owner group is notified and the
caller acked again, the connection's session binding is redirected to the
new session, and the previously bound session stays in the store
untouched (but no longer referenced by the connection's binding). -/
theorem C3_second_initiate_creates_session (st : ServerState)
    (sid callerName visitorId : String) (isVideoCall : Bool)
    (roomId rid0 : String) (now : Nat)
    (hbound : alistGet st.sockRoomId sid = some rid0)
    (hfresh : roomId ≠ rid0) :
    alistGet (handleInitiateCall st sid callerName visitorId isVideoCall
        roomId now).1.rooms roomId =
      some { caller := sid, callerName := callerName, visitorId := visitorId,
             isVideoCall := isVideoCall, owner := none, status := "ringing",
             createdAt := now } ∧
    alistGet (handleInitiateCall st sid callerName visitorId isVideoCall
        roomId now).1.rooms rid0 = alistGet st.rooms rid0 ∧
    alistGet (handleInitiateCall st sid callerName visitorId isVideoCall
        roomId now).1.sockRoomId sid = some roomId ∧
    (handleInitiateCall st sid callerName visitorId isVideoCall roomId now).2 =
      [(Target.room "owner-room",
        .incomingCall roomId callerName sid visitorId isVideoCall),
       (Target.socket sid, .callInitiated roomId "ringing")] := by
  refine ⟨?_, ?_, ?_, ?_⟩
  · simp [handleInitiateCall, joinRoom, alistGet_set_self]
  · simp [handleInitiateCall, joinRoom,
      alistGet_set_ne st.rooms roomId rid0 _ (fun hh => hfresh hh.symm)]
  · simp [handleInitiateCall, joinRoom, alistGet_set_self]
  · simp [handleInitiateCall, joinRoom]

/-- Claim C3 witness: with `v` already bound to session `r1`, a second
`initiate-call` generating `r2` creates the new session, leaves `r1` in
the store, rebinds `v` to `r2`, and emits the usual `incoming-call` and
`call-initiated` events. -/
theorem C3_second_initiate_creates_session_witness :
    alistGet exRingingState.sockRoomId "v" = some "r" ∧
    ("r2" : String) ≠ "r" ∧
    (alistGet (handleInitiateCall exRingingState "v" "Alice" "vis1" false
        "r2" 5).1.rooms "r2" =
      some { caller := "v", callerName := "Alice", visitorId := "vis1",
             isVideoCall := false, owner := none, status := "ringing",
             createdAt := 5 } ∧
     alistGet (handleInitiateCall exRingingState "v" "Alice" "vis1" false
        "r2" 5).1.rooms "r" = alistGet exRingingState.rooms "r" ∧
     alistGet (handleInitiateCall exRingingState "v" "Alice" "vis1" false
        "r2" 5).1.sockRoomId "v" = some "r2" ∧
     (handleInitiateCall exRingingState "v" "Alice" "vis1" false "r2" 5).2 =
      [(Target.room "owner-room", .incomingCall "r2" "Alice" "v" "vis1" false),
       (Target.socket "v", .callInitiated "r2" "ringing")]) :=
  ⟨by decide, by decide,
   C3_second_initiate_creates_session exRingingState "v" "Alice" "vis1" false
     "r2" "r" 5 (by decide) (by decide)⟩

/-- Claim C2 counterexample: socket `v` initiates session `r1` and then
session `r2` (so it participates in both: it is the stored caller of each)
and disconnects — only the currently bound session `r2` is ended and
removed, while session `r1`, which `v` also participated in, is left
dangling in the store with no `call-ended` emitted for it. -/
theorem C2_counterexample :
    (alistGet (handleDisconnect (handleInitiateCall (handleInitiateCall
        { initState with live := ["v", "o"] } "v" "Alice" "vis1" false "r1" 0).1
        "v" "Alice" "vis1" false "r2" 5).1 "v").1.rooms "r1").map Room.caller =
      some "v" ∧
    (handleDisconnect (handleInitiateCall (handleInitiateCall
        { initState with live := ["v", "o"] } "v" "Alice" "vis1" false "r1" 0).1
        "v" "Alice" "vis1" false "r2" 5).1 "v").2 =
      [(Target.room "r2", .callEnded "r2" (some "peer-disconnected"))] := by
  decide

/-- Claim C2 (amended): when a connection disconnects, exactly the session
named by its current `roomId` binding is cleaned up — if that session is
still in the store, a single `call-ended` with reason `peer-disconnected`
is emitted to the session's room and delivered to precisely the remaining
room members (the other participant when present, nobody when absent),
and the session is removed; sessions the connection participated in under
an earlier, overwritten binding are not cleaned up. -/
theorem C2_disconnect_removes_bound_session (st : ServerState)
    (sid rid : String) (room : Room)
    (hbind : alistGet st.sockRoomId sid = some rid)
    (hroom : alistGet st.rooms rid = some room) :
    (handleDisconnect st sid).2 =
      [(Target.room rid, .callEnded rid (some "peer-disconnected"))] ∧
    alistGet (handleDisconnect st sid).1.rooms rid = none ∧
    deliveries (handleDisconnect st sid).1 (handleDisconnect st sid).2 =
      (setDel (getMembers st rid) sid).map
        (fun s => (s, EventMsg.callEnded rid (some "peer-disconnected"))) := by
  refine ⟨?_, ?_, ?_⟩
  · simp [handleDisconnect, leaveAll, hbind, hroom]
  · simp [handleDisconnect, leaveAll, hbind, hroom, alistGet_delete_self]
  · simp only [handleDisconnect, leaveAll, hbind, hroom]
    simp only [deliveries, deliverTo, List.flatMap_cons, List.flatMap_nil,
      List.append_nil, getMembers]
    rw [alistGet_setDel_map]
    cases alistGet st.members rid <;> simp [setDel]

/-- Claim C2 witness: on the connecting-session fixture (participants `v`
and `o`, both in room `r`), disconnecting `v` emits one `call-ended` with
reason `peer-disconnected`, removes the session, and delivers the event to
exactly the other participant `o`. -/
theorem C2_disconnect_removes_bound_session_witness :
    alistGet exConnState.sockRoomId "v" = some "r" ∧
    alistGet exConnState.rooms "r" = some exConnRoom ∧
    ((handleDisconnect exConnState "v").2 =
      [(Target.room "r", .callEnded "r" (some "peer-disconnected"))] ∧
     alistGet (handleDisconnect exConnState "v").1.rooms "r" = none ∧
     deliveries (handleDisconnect exConnState "v").1
        (handleDisconnect exConnState "v").2 =
      (setDel (getMembers exConnState "r") "v").map
        (fun s => (s, EventMsg.callEnded "r" (some "peer-disconnected")))) :=
  ⟨by decide, by decide,
   C2_disconnect_removes_bound_session exConnState "v" "r" exConnRoom
     (by decide) (by decide)⟩

/-- Claim C5: the reaper sweep at time `now` force-ends exactly the
sessions older than the maximum lifetime: a stored session whose age is at
most `maxAge` is untouched and receives no event (so a session is never
removed before its lifetime has elapsed), a session whose age exceeds
`maxAge` is removed with exactly one `call-ended` event with reason
`timeout` broadcast to its room, and a session id absent from the store is
simply not present afterwards either, with no event and no error. -/
theorem C5_reaper_sweep (st : ServerState) (now : Nat) (rid : String)
    (hnd : (st.rooms.map Prod.fst).Nodup) :
    (∀ room, alistGet st.rooms rid = some room →
      ((now - room.createdAt ≤ maxAge →
          alistGet (reaperSweep st now).1.rooms rid = some room ∧
          (reaperSweep st now).2.countP
            (fun e => decide (e.1 = Target.room rid)) = 0) ∧
       (now - room.createdAt > maxAge →
          alistGet (reaperSweep st now).1.rooms rid = none ∧
          (reaperSweep st now).2.countP
            (fun e => decide (e.1 = Target.room rid)) = 1 ∧
          (Target.room rid, EventMsg.callEnded rid (some "timeout")) ∈
            (reaperSweep st now).2))) ∧
    (alistGet st.rooms rid = none →
      alistGet (reaperSweep st now).1.rooms rid = none ∧
      (reaperSweep st now).2.countP
        (fun e => decide (e.1 = Target.room rid)) = 0) := by
  have hcnt : ∀ (l : List (String × Room)),
      ((l.map (fun p => ((Target.room p.1, EventMsg.callEnded p.1
          (some "timeout")) : Emit))).countP
        (fun e => decide (e.1 = Target.room rid))) =
      l.countP (fun p => decide (p.1 = rid)) := by
    intro l
    rw [List.countP_map]
    exact List.countP_congr (fun p _ => by simp [Function.comp])
  constructor
  · intro room h
    constructor
    · intro hage
      have hstale : staleAt now (rid, room) = false := by
        simp only [staleAt, decide_eq_false_iff_not]
        omega
      have hkeep : (fun (p : String × Room) => ! staleAt now p) (rid, room) =
          true := by simp [hstale]
      refine ⟨?_, ?_⟩
      · exact alistGet_filter_pos _ st.rooms rid room h hkeep
      · rw [show (reaperSweep st now).2 =
            (st.rooms.filter (staleAt now)).map
              (fun p => (Target.room p.1,
                EventMsg.callEnded p.1 (some "timeout"))) from rfl, hcnt]
        exact countP_key_zero _ _
          (alistGet_filter_neg _ st.rooms rid room hnd h hstale)
    · intro hage
      have hstale : staleAt now (rid, room) = true := by
        simp only [staleAt, decide_eq_true_eq]
        omega
      have hkeep : (fun (p : String × Room) => ! staleAt now p) (rid, room) =
          false := by simp [hstale]
      refine ⟨?_, ?_, ?_⟩
      · exact alistGet_filter_neg _ st.rooms rid room hnd h hkeep
      · rw [show (reaperSweep st now).2 =
            (st.rooms.filter (staleAt now)).map
              (fun p => (Target.room p.1,
                EventMsg.callEnded p.1 (some "timeout"))) from rfl, hcnt]
        exact countP_key_filter_one _ st.rooms rid room hnd h hstale
      · have hmem : (rid, room) ∈ st.rooms.filter (staleAt now) :=
          mem_of_alistGet_some _ _ _
            (alistGet_filter_pos _ st.rooms rid room h hstale)
        exact List.mem_map.2 ⟨(rid, room), hmem, rfl⟩
  · intro h
    refine ⟨?_, ?_⟩
    · exact alistGet_filter_none _ st.rooms rid h
    · rw [show (reaperSweep st now).2 =
          (st.rooms.filter (staleAt now)).map
            (fun p => (Target.room p.1,
              EventMsg.callEnded p.1 (some "timeout"))) from rfl, hcnt]
      exact countP_key_zero _ _ (alistGet_filter_none _ st.rooms rid h)

/-- Claim C5 witness: on a two-session store holding the stale session
`r` (created at time 0) and the fresh session `s` (created at time
400000), a sweep at time 600001 removes `r` with one `timeout` broadcast,
while a sweep of the same store leaves `s` in place with no event for it,
and the absent id `ghost` stays absent with no event. -/
theorem C5_reaper_sweep_witness :
    ((([("r", exConnRoom), ("s", { exConnRoom with createdAt := 400000 })].map
        Prod.fst).Nodup) ∧
     alistGet [("r", exConnRoom),
       ("s", { exConnRoom with createdAt := 400000 })] "r" = some exConnRoom ∧
     600001 - exConnRoom.createdAt > maxAge) ∧
    (alistGet (reaperSweep { initState with rooms := [("r", exConnRoom),
        ("s", { exConnRoom with createdAt := 400000 })] } 600001).1.rooms "r" =
      none ∧
     (reaperSweep { initState with rooms := [("r", exConnRoom),
        ("s", { exConnRoom with createdAt := 400000 })] } 600001).2.countP
        (fun e => decide (e.1 = Target.room "r")) = 1 ∧
     (Target.room "r", EventMsg.callEnded "r" (some "timeout")) ∈
       (reaperSweep { initState with rooms := [("r", exConnRoom),
        ("s", { exConnRoom with createdAt := 400000 })] } 600001).2) ∧
    (alistGet (reaperSweep { initState with rooms := [("r", exConnRoom),
        ("s", { exConnRoom with createdAt := 400000 })] } 600001).1.rooms "s" =
      some { exConnRoom with createdAt := 400000 } ∧
     (reaperSweep { initState with rooms := [("r", exConnRoom),
        ("s", { exConnRoom with createdAt := 400000 })] } 600001).2.countP
        (fun e => decide (e.1 = Target.room "s")) = 0) ∧
    (alistGet (reaperSweep { initState with rooms := [("r", exConnRoom),
        ("s", { exConnRoom with createdAt := 400000 })] } 600001).1.rooms
        "ghost" = none ∧
     (reaperSweep { initState with rooms := [("r", exConnRoom),
        ("s", { exConnRoom with createdAt := 400000 })] } 600001).2.countP
        (fun e => decide (e.1 = Target.room "ghost")) = 0) :=
  ⟨⟨by decide, by decide, by decide⟩,
   ((C5_reaper_sweep { initState with rooms := [("r", exConnRoom),
        ("s", { exConnRoom with createdAt := 400000 })] } 600001 "r"
      (by decide)).1 exConnRoom (by decide)).2 (by decide),
   ((C5_reaper_sweep { initState with rooms := [("r", exConnRoom),
        ("s", { exConnRoom with createdAt := 400000 })] } 600001 "s"
      (by decide)).1 { exConnRoom with createdAt := 400000 } (by decide)).1
      (by decide),
   (C5_reaper_sweep { initState with rooms := [("r", exConnRoom),
        ("s", { exConnRoom with createdAt := 400000 })] } 600001 "ghost"
      (by decide)).2 (by decide)⟩

end WebRTCPhone
